import Mathlib

/-!
# Verification of the Agentic Query Router (`backend/services/llm_service.py`)

Shallow embedding of the agentic query router of the academic-advisor
application: the FAQ short-circuit, the intent classifier
(`determine_intent`), the confidence-threshold fallback, the per-intent
branches of `process_agentic_query`, and the content-addressed response
cache (`cache_manager.py` + `generate_llm_response`).

Modelling conventions:
* Python strings are Lean `String`s.  The Python `s.lower()` call is modelled
  by `pyLower` (character-wise `Char.toLower`; it agrees with Python on the
  ASCII and Arabic text the program handles — Arabic letters are case-less in
  both).
* Python floats (classifier confidences, thresholds, times) are modelled as
  rationals `ℚ`; every comparison performed by the program is far from the
  representation error of binary floats, so the order structure is preserved.
* Fallible calls (network, adapter, LLM) are modelled with `Except String α`;
  a raised exception is `.error e` where `e` stands for the text of the exception
  (`repr(e)` where the code formats it).
* Python truthiness on `Optional[str]` values (`if context_str:`,
  `if not user_id:`, `if cached:`) is modelled by `pyTruthyStr`: `None` and
  the empty string are falsy.
* The LLM collaborators are modelled as explicit oracles inside an `Env`
  record, so the router stays a pure function of its inputs.
-/

/-- Prefix test on lists of characters: `listIsPrefix n h` says `n` is a
prefix of `h`. -/
def listIsPrefix : List Char → List Char → Bool
  | [], _ => true
  | _ :: _, [] => false
  | a :: as, b :: bs => a == b && listIsPrefix as bs

/-- Contiguous-occurrence test: `listContainsSub n h` says the list `n`
occurs contiguously inside `h`. -/
def listContainsSub (n : List Char) : List Char → Bool
  | [] => listIsPrefix n []
  | h :: t => listIsPrefix n (h :: t) || listContainsSub n t

/-- Model of the Python substring test `needle in haystack` on strings. -/
def strContainsSub (haystack needle : String) : Bool :=
  listContainsSub needle.toList haystack.toList

/-- Model of the Python `str.lower` call, character by character (the Lean
core `String.toLower` is not used because it does not reduce in the kernel;
this map agrees with it, and with Python, on the ASCII and Arabic text the
program handles). -/
def pyLower (s : String) : String := String.mk (s.toList.map Char.toLower)

/-- Model of the Python `str.strip` call: drop leading and trailing
whitespace. -/
def pyStrip (l : List Char) : List Char :=
  ((l.dropWhile Char.isWhitespace).reverse.dropWhile Char.isWhitespace).reverse

/-- Model of the Python single-character `str.replace` calls used by the
intent normalization chain: every occurrence of the character `pat` is
replaced by the string `rep`. -/
def replaceChar (pat : Char) (rep : List Char) : List Char → List Char
  | [] => []
  | c :: rest => (if c == pat then rep else [c]) ++ replaceChar pat rep rest

/-- Python truthiness of an `Optional[str]` value: `None` and `""` are falsy. -/
def pyTruthyStr : Option String → Bool
  | none => false
  | some s => !(s == "")

/-- Decidable equality for the result type of fallible calls, so concrete
runs of the model can be checked by `decide`. -/
instance {ε α : Type} [DecidableEq ε] [DecidableEq α] : DecidableEq (Except ε α) :=
  fun x y =>
  match x, y with
  | .ok a, .ok b =>
      if h : a = b then .isTrue (by rw [h])
      else .isFalse (by intro hc; cases hc; exact h rfl)
  | .error a, .error b =>
      if h : a = b then .isTrue (by rw [h])
      else .isFalse (by intro hc; cases hc; exact h rfl)
  | .ok _, .error _ => .isFalse (by intro hc; cases hc)
  | .error _, .ok _ => .isFalse (by intro hc; cases hc)

/-- Model of `llm_service.LLMResponse` (pydantic): answer, source, intent. -/
structure LLMResponse where
  answer : String
  source : String
  intent : String
deriving Repr, DecidableEq

/-- Model of `llm_service.IntentPrediction` (dataclass): intent, confidence,
reason. -/
structure IntentPrediction where
  intent : String
  confidence : ℚ
  reason : Option String
deriving Repr, DecidableEq

/-- Model of `llm_service.FAQ_DATABASE`: the static FAQ dictionary, as an
association list (insertion order of the Python dict literal). -/
def FAQ_DATABASE : List (String × String) :=
  [("متى آخر يوم للحذف والإضافة؟", "آخر يوم هو 20 فبراير 2025."),
   ("ما هي درجة النجاح في مادة 101؟", "درجة C أو 60%.")]

/-- Model of `llm_service.INTENT_KEYWORDS`: keyword sets per intent, in the
insertion order of the Python dict (`analyze_progress`, `simulate_gpa`,
`graph_query`, `query_rag`), which is the priority order of the keyword
heuristic. -/
def INTENT_KEYWORDS : List (String × List String) :=
  [("analyze_progress", ["معدل", "gpa", "علامتي", "التقدم", "الساعات", "remaining"]),
   ("simulate_gpa", ["محاكاة", "توقع", "expected gpa", "احسب معدلي"]),
   ("graph_query", ["مهارات", "skills", "مسار", "path", "تخصص", "ترابط"]),
   ("query_rag", ["لائحة", "نظام", "قانون", "خطة", "مقرر", "course description", "لوائح"])]

/-- The set of intents `determine_intent` accepts (`valid_intents` in the
source). -/
def valid_intents : List String :=
  ["query_rag", "analyze_progress", "simulate_gpa", "graph_query", "general_chat"]

/-- The normalization applied to a classifier intent string before validation:
`str(x).strip().lower().replace(".", "").replace(" ", "_")`. -/
def normalizeIntent (s : String) : String :=
  String.mk (replaceChar ' ' ['_']
    (replaceChar '.' [] ((pyStrip s.toList).map Char.toLower)))

/-- Outcome of the classifier LLM call, abstracting `json.loads` on the raw
text: `json i c r` models a successful parse whose `intent` field stringifies
to `i`, whose `confidence` field converts to the float `c` (defaulting to 0.6
when absent), and whose `reason` field is `r`; `nonJson raw` models the
`except` branch (parse failure, or a `confidence` field `float()` rejects),
where the raw response text `raw` itself is used as the intent. -/
inductive ClassifierOutput where
  | json (intent : String) (confidence : ℚ) (reason : Option String)
  | nonJson (raw : String)
deriving Repr, DecidableEq

/-- The intent string extracted from a classifier output, after the
normalization chain of the source (trim, lowercase, drop periods, spaces to
underscores). -/
def ClassifierOutput.normalized : ClassifierOutput → String
  | .json i _ _ => normalizeIntent i
  | .nonJson raw => normalizeIntent raw

/-- The keyword heuristic of `determine_intent`: the first intent (in
`INTENT_KEYWORDS` order) one of whose keywords occurs in the lowercased
question. -/
def keywordIntent (question : String) : Option String :=
  let lowered := pyLower question
  (INTENT_KEYWORDS.find? fun p => p.2.any fun k => strContainsSub lowered k).map
    Prod.fst

/-- Model of `llm_service.determine_intent`.  The LLM call on the no-keyword path
(through `generate_llm_response`) is abstracted as the oracle
`classifierRaw : Except String ClassifierOutput`; `.error` models the
generation call raising, which `determine_intent` does not catch. -/
def determine_intent (question : String)
    (classifierRaw : Except String ClassifierOutput) :
    Except String IntentPrediction :=
  match keywordIntent question with
  | some intentName =>
      .ok ⟨intentName, mkRat 95 100, some "Keyword heuristic"⟩
  | none =>
      match classifierRaw with
      | .error e => .error e
      | .ok out =>
          let base : String × ℚ × Option String :=
            match out with
            | .json i c r => (normalizeIntent i, c, r)
            | .nonJson raw => (normalizeIntent raw, mkRat 6 10, none)
          let intent₀ := base.1
          let confidence₀ := base.2.1
          let reason := base.2.2
          let (intent₁, confidence₁) :=
            if intent₀ ∈ valid_intents then (intent₀, confidence₀)
            else ("general_chat", min confidence₀ (mkRat 1 2))
          .ok ⟨intent₁, max 0 (min confidence₁ 1), reason⟩

/-- One entry of the chat history (`{"role": ..., "content": ...}`); fields the
prompt formatter does not read are omitted. -/
structure HistEntry where
  role : String
  content : String
deriving Repr, DecidableEq

/-- Model of `llm_service._format_history_for_prompt`: empty history gives `""`;
otherwise the last 6 entries, one line each, role rendered as an Arabic
label (`entry.get("role", "user") == "user"`). -/
def _format_history_for_prompt (chat_history : List HistEntry) : String :=
  match chat_history with
  | [] => ""
  | h =>
      String.intercalate "\n" ((h.drop (h.length - 6)).map fun e =>
        (if e.role == "user" then "المستخدم" else "المساعد") ++ ": " ++ e.content)

/-- The `history_section` local of `process_agentic_query`: empty when the
formatted history block is falsy, otherwise the block wrapped in the
`السياق السابق` frame. -/
def historySection (chat_history : List HistEntry) : String :=
  let history_block := _format_history_for_prompt chat_history
  if history_block == "" then ""
  else "\nالسياق السابق:\n" ++ history_block ++ "\n---\n"

/-- One entry of `progress_data["registerable_next_semester"]`; only the
`code` field is read by the router. -/
structure RegisterableCourse where
  code : String
deriving Repr, DecidableEq

/-- The progress payload returned by `adapter.analyze_progress`.  Scalar
fields are kept as the strings they interpolate to in the analysis prompt
(`str()` of the underlying numbers / mapping). -/
structure ProgressData where
  current_gpa : String
  completed_hours : String
  remaining_courses_count : String
  registerable_next_semester : List RegisterableCourse
  completed_courses : String
deriving Repr, DecidableEq

/-- The grounded RAG prompt of the `query_rag` branch (f-string contents;
the incidental indentation whitespace of the Python triple-quoted literal is
not reproduced). -/
def rag_prompt (history_section context_str question : String) : String :=
  "أنت \"مرشدي الأكاديمي الذكي\".\n" ++
  "أجب على السؤال بدقة بناءً على المستندات التالية فقط.\n" ++
  "إذا لم تجد الجواب، قل \"لا أعرف\".\n\n" ++
  history_section ++ "\n" ++
  "المستندات:\n" ++ context_str ++ "\n\n" ++
  "السؤال:\n" ++ question

/-- The analysis prompt of the `analyze_progress` branch. -/
def analysis_prompt (history_section : String) (pd : ProgressData)
    (question : String) : String :=
  "أنت مرشد أكاديمي. بناءً على بيانات تقدم الطالب التالية، أجب على سؤاله مع الأخذ بعين الاعتبار السياق السابق إن وجد.\n\n" ++
  history_section ++ "\n\n" ++
  "بيانات الطالب:\n" ++
  "- المعدل التراكمي الحالي: " ++ pd.current_gpa ++ "\n" ++
  "- الساعات المكتملة: " ++ pd.completed_hours ++ "\n" ++
  "- المقررات المتبقية: " ++ pd.remaining_courses_count ++ "\n" ++
  "- المقررات القابلة للتسجيل: " ++
    String.intercalate ", " (pd.registerable_next_semester.map RegisterableCourse.code) ++ "\n" ++
  "- المقررات المكتملة: " ++ pd.completed_courses ++ "\n\n" ++
  "السؤال:\n" ++ question

/-- The plain conversational prompt of the `general_chat` branch. -/
def general_prompt (history_section question : String) : String :=
  "أنت \"مرشدي الأكاديمي الذكي\". استخدم سياق المحادثة السابقة إن وجد لتقديم إجابة دقيقة ومفيدة.\n\n" ++
  history_section ++ "\n" ++
  "السؤال:\n" ++ question

/-- The fixed refusal answer of the demo-mode guard in the
`analyze_progress` branch. -/
def demoRefusalAnswer : String :=
  "⚠️ الوضع التجريبي لا يدعم الوصول إلى بياناتك الشخصية. يرجى تسجيل الدخول بالبيانات الصحيحة للوصول إلى هذه الميزة."

/-- The fixed apology answer of the terminal `Agent Error` state. -/
def agentErrorAnswer : String :=
  "عذراً، لم أتمكن من فهم نيتك أو توجيه سؤالك إلى الخدمة المناسبة."

/-- Collaborators and configuration of the router: the three `ServiceAdapter`
operations, the LLM generation call (`generate_llm_response`, as seen by the
router), the outcome of the LLM call of the classifier (consumed by
`determine_intent` when no keyword matches), and the two environment-derived
configuration values with their source defaults. -/
structure Env where
  retrieve_context : String → Except String (Option String × String)
  analyze_progress : String → Except String ProgressData
  get_skills_for_course : String → Except String (List String)
  generate : String → Except String String
  classifierRaw : Except String ClassifierOutput
  INTENT_FALLBACK_THRESHOLD : ℚ := mkRat 7 10
  DEFAULT_FALLBACK_INTENT : String := "query_rag"

/-- Lines 356–366 of `process_agentic_query`: keep the classified intent when
its confidence reaches the threshold, otherwise substitute the configured
fallback intent and set the `fallback_triggered` flag. -/
def resolveIntent (env : Env) (pred : IntentPrediction) : String × Bool :=
  if pred.confidence < env.INTENT_FALLBACK_THRESHOLD then
    (env.DEFAULT_FALLBACK_INTENT, true)
  else (pred.intent, false)

/-- The `general_chat` tail of the router (step 3.5): generate from the plain
conversational prompt; at this point the `intent` local is `"general_chat"`. -/
def general_chat_respond (env : Env) (history_section question : String) :
    Except String LLMResponse :=
  match env.generate (general_prompt history_section question) with
  | .error e => .error e
  | .ok answer => .ok ⟨answer, "LLM (General)", "general_chat"⟩

/-- The body of the `try:` block in the `analyze_progress` branch: adapter
call followed by answer generation; either step may raise. -/
def analyze_progress_branch (env : Env) (uid history_section question : String) :
    Except String String :=
  match env.analyze_progress uid with
  | .error e => .error e
  | .ok pd => env.generate (analysis_prompt history_section pd question)

/-- Step 3 of `process_agentic_query`: dispatch on the resolved intent.
Reproduces the `if/elif` chain of the source, the two in-branch reassignments of
`intent` to `"general_chat"` (empty RAG context; graph heuristic miss or
empty skill list), the trailing `if intent == "general_chat"` block, and the
terminal `Agent Error` return. -/
def routeIntent (env : Env) (question : String) (user_id : Option String)
    (is_demo : Bool) (history_section intent : String)
    (fallback_triggered : Bool) : Except String LLMResponse :=
  if intent == "query_rag" then
    match env.retrieve_context question with
    | .error e => .error e
    | .ok (context_str, source_info) =>
        if pyTruthyStr context_str then
          match env.generate
              (rag_prompt history_section (context_str.getD "") question) with
          | .error e => .error e
          | .ok answer =>
              .ok ⟨answer,
                   if fallback_triggered then source_info ++ " (Fallback)"
                   else source_info,
                   intent⟩
        else
          general_chat_respond env history_section question
  else if intent == "analyze_progress" then
    if is_demo || !pyTruthyStr user_id then
      .ok ⟨demoRefusalAnswer, "Demo Mode", intent⟩
    else
      match analyze_progress_branch env (user_id.getD "") history_section question with
      | .ok answer => .ok ⟨answer, "Student Progress Service", intent⟩
      | .error e => .ok ⟨"حدث خطأ أثناء تحليل تقدم الطالب: " ++ e, "Error", intent⟩
  else if intent == "graph_query" then
    if strContainsSub question "مهارات" && strContainsSub question "مقرر" then
      match env.get_skills_for_course "CS101" with
      | .error e => .error e
      | .ok skills =>
          if !skills.isEmpty then
            .ok ⟨"المقرر CS101 يدرس المهارات التالية: " ++
                   String.intercalate ", " skills,
                 "Graph DB (Neo4j)", intent⟩
          else
            general_chat_respond env history_section question
    else
      general_chat_respond env history_section question
  else if intent == "general_chat" then
    general_chat_respond env history_section question
  else
    .ok ⟨agentErrorAnswer, "Agent Error", "unknown"⟩

/-- Model of `llm_service.process_agentic_query`: FAQ short-circuit, classification,
confidence fallback, history formatting, then the intent dispatch. -/
def process_agentic_query (question : String) (user_id : Option String)
    (env : Env) (is_demo : Bool) (chat_history : List HistEntry) :
    Except String LLMResponse :=
  match FAQ_DATABASE.find? (fun p => p.1 == question) with
  | some p => .ok ⟨p.2, "FAQ Database", "query_rag"⟩
  | none =>
      match determine_intent question env.classifierRaw with
      | .error e => .error e
      | .ok pred =>
          let r := resolveIntent env pred
          routeIntent env question user_id is_demo (historySection chat_history)
            r.1 r.2

/-! ## Response cache (`cache_manager.py`) and `generate_llm_response`

Cache keys are `namespace ++ ":" ++ SHA-256 hex digest of the payload`
(`llm_service._hash_key`).  SHA-256 is implemented below over `Nat` byte and
word values (words reduced modulo `2^32`).  With no `REDIS_CACHE_URL`
configured the `CacheManager` uses only its in-memory TTL fallback store,
which is what is modelled: an association list from key to
(expiry time, stored text), with wall-clock times as rationals passed
explicitly.  Serialization is the identity here: `_serialize` is the
identity on `str` values, and `_deserialize` of a stored plain-text answer
returns the text itself (the JSON round trip only differs for answers that
are themselves valid JSON literals, which the modelled property does not
depend on). -/

/-- Word value reduced to 32 bits. -/
def u32 (x : Nat) : Nat := x % 4294967296

/-- Rotate the 32-bit word `x` right by `n` places. -/
def rotr32 (x n : Nat) : Nat := u32 ((x >>> n) ||| (x <<< (32 - n)))

/-- UTF-8 encoding of one character, as byte values (models
`payload.encode("utf-8")`). -/
def utf8Bytes (c : Char) : List Nat :=
  let v := c.toNat
  if v < 128 then [v]
  else if v < 2048 then
    [192 ||| (v >>> 6), 128 ||| (v &&& 63)]
  else if v < 65536 then
    [224 ||| (v >>> 12), 128 ||| ((v >>> 6) &&& 63), 128 ||| (v &&& 63)]
  else
    [240 ||| (v >>> 18), 128 ||| ((v >>> 12) &&& 63),
     128 ||| ((v >>> 6) &&& 63), 128 ||| (v &&& 63)]

/-- UTF-8 byte sequence of a string. -/
def strBytes (s : String) : List Nat := (s.toList.map utf8Bytes).flatten

/-- The 64 SHA-256 round constants, written in decimal. -/
def sha256K : List Nat :=
  [1116352408, 1899447441, 3049323471, 3921009573, 961987163,
   1508970993, 2453635748, 2870763221, 3624381080, 310598401,
   607225278, 1426881987, 1925078388, 2162078206, 2614888103,
   3248222580, 3835390401, 4022224774, 264347078, 604807628,
   770255983, 1249150122, 1555081692, 1996064986, 2554220882,
   2821834349, 2952996808, 3210313671, 3336571891, 3584528711,
   113926993, 338241895, 666307205, 773529912, 1294757372,
   1396182291, 1695183700, 1986661051, 2177026350, 2456956037,
   2730485921, 2820302411, 3259730800, 3345764771, 3516065817,
   3600352804, 4094571909, 275423344, 430227734, 506948616,
   659060556, 883997877, 958139571, 1322822218, 1537002063,
   1747873779, 1955562222, 2024104815, 2227730452, 2361852424,
   2428436474, 2756734187, 3204031479, 3329325298]

/-- The eight SHA-256 initial hash words, written in decimal. -/
def sha256H0 : List Nat :=
  [1779033703, 3144134277, 1013904242, 2773480762,
   1359893119, 2600822924, 528734635, 1541459225]

/-- SHA-256 message padding: append the `0x80` byte, zero bytes to 56 mod 64,
then the bit length as 8 big-endian bytes. -/
def sha256pad (msg : List Nat) : List Nat :=
  let L := msg.length
  let k := (119 - L % 64) % 64
  msg ++ [128] ++ List.replicate k 0 ++
    ((List.range 8).map fun i => (8 * L >>> (8 * (7 - i))) % 256)

/-- Split a byte list into 64-byte chunks (structural recursion on a fuel
argument so the kernel can evaluate it; `l.length` is always enough fuel). -/
def chunks64 : Nat → List Nat → List (List Nat)
  | 0, _ => []
  | _ + 1, [] => []
  | fuel + 1, l => l.take 64 :: chunks64 fuel (l.drop 64)

/-- The first 16 words of the message schedule, big-endian from the chunk
bytes. -/
def initW (chunk : List Nat) : List Nat :=
  (List.range 16).map fun i =>
    (chunk.getD (4 * i) 0 <<< 24) + (chunk.getD (4 * i + 1) 0 <<< 16) +
    (chunk.getD (4 * i + 2) 0 <<< 8) + chunk.getD (4 * i + 3) 0

/-- Extension of the message schedule by `n` further words. -/
def extendW : Nat → List Nat → List Nat
  | 0, w => w
  | n + 1, w =>
      let i := w.length
      let x15 := w.getD (i - 15) 0
      let x2 := w.getD (i - 2) 0
      let s0 := rotr32 x15 7 ^^^ rotr32 x15 18 ^^^ (x15 >>> 3)
      let s1 := rotr32 x2 17 ^^^ rotr32 x2 19 ^^^ (x2 >>> 10)
      extendW n (w ++ [u32 (w.getD (i - 16) 0 + s0 + w.getD (i - 7) 0 + s1)])

/-- SHA-256 compression of one 64-byte chunk into the running hash. -/
def sha256compress (h : List Nat) (chunk : List Nat) : List Nat :=
  let w := extendW 48 (initW chunk)
  let st := (sha256K.zip w).foldl
    (fun st kw =>
      match st with
      | [a, b, c, d, e, f, g, hh] =>
          let S1 := rotr32 e 6 ^^^ rotr32 e 11 ^^^ rotr32 e 25
          let ch := (e &&& f) ^^^ ((4294967295 ^^^ e) &&& g)
          let temp1 := u32 (hh + S1 + ch + kw.1 + kw.2)
          let S0 := rotr32 a 2 ^^^ rotr32 a 13 ^^^ rotr32 a 22
          let maj := (a &&& b) ^^^ (a &&& c) ^^^ (b &&& c)
          let temp2 := u32 (S0 + maj)
          [u32 (temp1 + temp2), a, b, c, u32 (d + temp1), e, f, g]
      | other => other)
    h
  (h.zip st).map fun p => u32 (p.1 + p.2)

/-- Lowercase hexadecimal digit. -/
def hexDigit (n : Nat) : Char :=
  "0123456789abcdef".toList.getD n '0'

/-- Lowercase 8-digit hexadecimal rendering of a 32-bit word. -/
def hex8 (x : Nat) : String :=
  String.mk ((List.range 8).map fun i => hexDigit ((x >>> (4 * (7 - i))) % 16))

/-- Model of `hashlib.sha256(payload.encode("utf-8")).hexdigest()`. -/
def sha256hex (s : String) : String :=
  let padded := sha256pad (strBytes s)
  String.join (((chunks64 padded.length padded).foldl sha256compress
    sha256H0).map hex8)

/-- Model of `llm_service._hash_key`: namespaced content hash. -/
def _hash_key (ns payload : String) : String :=
  ns ++ ":" ++ sha256hex payload

/-- In-memory TTL cache state (`cache_manager._InMemoryTTLCache._store`): an
association list from key to (expiry time, stored text). -/
structure CacheState where
  store : List (String × ℚ × String)
deriving Repr, DecidableEq

/-- Model of `_InMemoryTTLCache.get` (as reached through
`CacheManager.get` with no Redis client): miss on an absent key; an entry
whose expiry is strictly in the past is deleted and reported as a miss;
otherwise the stored text is returned. -/
def cacheGet (s : CacheState) (now : ℚ) (key : String) :
    Option String × CacheState :=
  match s.store.find? fun e => e.1 == key with
  | none => (none, s)
  | some (_, exp, v) =>
      if exp < now then (none, ⟨s.store.filter fun e => !(e.1 == key)⟩)
      else (some v, s)

/-- Model of `_InMemoryTTLCache.set` (as reached through `CacheManager.set`
with no Redis client): store the value under the key with expiry
`now + ttl`, replacing any previous entry for the key. -/
def cacheSet (s : CacheState) (now : ℚ) (key value : String) (ttl : ℚ) :
    CacheState :=
  ⟨(key, now + ttl, value) :: s.store.filter fun e => !(e.1 == key)⟩

/-- Configured TTL for cached LLM answers (`LLM_CACHE_TTL`, default 900s). -/
def LLM_CACHE_TTL : ℚ := 900

/-- Model of `llm_service.generate_llm_response`, instrumented for counting:
`gen` is the underlying generation collaborator (`_client_factory.generate`),
indexed by the number of invocations made so far, so successive invocations
may answer differently or raise; `calls` is the running invocation count.
Returns the answer, the new cache state and the new invocation count.  A
cached value is used only when truthy (`if cached:`), so an empty cached
answer is treated as a miss, exactly as in the source. -/
def generate_llm_response (gen : Nat → String → Except String String)
    (cache : CacheState) (now : ℚ) (calls : Nat) (prompt : String) :
    Except String (String × CacheState × Nat) :=
  let cache_key := _hash_key "llm:response" prompt
  let got := cacheGet cache now cache_key
  if pyTruthyStr got.1 then
    .ok (got.1.getD "", got.2, calls)
  else
    match gen calls prompt with
    | .error e => .error e
    | .ok answer =>
        .ok (answer, cacheSet got.2 now cache_key answer LLM_CACHE_TTL,
             calls + 1)

/-- Two consecutive `generate_llm_response` calls with the same prompt, at
times `t1` and `t2`, starting from cache state `s0` and invocation count 0:
returns (first answer, second answer, final cache state, total underlying
invocations). -/
def runGenTwice (gen : Nat → String → Except String String) (s0 : CacheState)
    (t1 t2 : ℚ) (prompt : String) :
    Except String (String × String × CacheState × Nat) :=
  match generate_llm_response gen s0 t1 0 prompt with
  | .error e => .error e
  | .ok (a1, s1, c1) =>
      match generate_llm_response gen s1 t2 c1 prompt with
      | .error e => .error e
      | .ok (a2, s2, c2) => .ok (a1, a2, s2, c2)

/-- Shared concrete collaborator environment for concrete evaluations:
retrieval finds no context, progress analysis raises `"boom"`, the graph
service knows one skill, generation returns a fixed answer, and the LLM
classifier (when consulted) answers general_chat with confidence 0.1. -/
def exampleEnv : Env where
  retrieve_context := fun _ => .ok (none, "Documents (RAG)")
  analyze_progress := fun _ => .error "boom"
  get_skills_for_course := fun _ => .ok ["Programming"]
  generate := fun _ => .ok "GEN"
  classifierRaw := .ok (.json "general_chat" (mkRat 1 10) none)

/-- Variant environment whose context retrieval finds a non-empty context. -/
def ragCtxEnv : Env := { exampleEnv with
  retrieve_context := fun _ => .ok (some "CTX", "Documents (RAG)") }

/-- Variant environment whose LLM classifier answers graph_query with
confidence 0.9 and whose graph lookup returns the empty skill list. -/
def graphEmptyEnv : Env := { exampleEnv with
  classifierRaw := .ok (.json "graph_query" (mkRat 9 10) none),
  get_skills_for_course := fun _ => .ok [] }

/-- Dispatch shape of the router off the FAQ fast path: with no FAQ match
and a successful classification, `process_agentic_query` is the intent
dispatch at the resolved intent. -/
theorem process_agentic_query_noFAQ (question : String) (u : Option String)
    (env : Env) (d : Bool) (ch : List HistEntry) (pred : IntentPrediction)
    (hfaq : FAQ_DATABASE.find? (fun p => p.1 == question) = none)
    (hdet : determine_intent question env.classifierRaw = .ok pred) :
    process_agentic_query question u env d ch =
      routeIntent env question u d (historySection ch)
        (resolveIntent env pred).1 (resolveIntent env pred).2 := by
  unfold process_agentic_query
  rw [hfaq, hdet]

/-- C1 (amended): for every call with no FAQ match whose resolved intent is
"simulate_gpa", the router does not fall through to general_chat: it reaches
the terminal error state and returns the fixed apology with source
"Agent Error" and intent "unknown". -/
theorem C1_simulate_gpa_terminal (question : String) (u : Option String)
    (env : Env) (d : Bool) (ch : List HistEntry) (pred : IntentPrediction)
    (hfaq : FAQ_DATABASE.find? (fun p => p.1 == question) = none)
    (hdet : determine_intent question env.classifierRaw = .ok pred)
    (hres : (resolveIntent env pred).1 = "simulate_gpa") :
    process_agentic_query question u env d ch =
      .ok ⟨agentErrorAnswer, "Agent Error", "unknown"⟩ := by
  rw [process_agentic_query_noFAQ question u env d ch pred hfaq hdet, hres]
  simp [routeIntent]

/-- C1 counterexample: the question `"محاكاة"` contains the registered
simulate_gpa keyword, matches no FAQ entry, and classifies as simulate_gpa
with confidence 0.95 (above the 0.7 threshold); the router returns source
"Agent Error" and intent "unknown", not intent "general_chat" with source
"LLM (General)" as the claim states. -/
theorem C1_counterexample :
    process_agentic_query "محاكاة" (some "s1") exampleEnv false [] =
      .ok ⟨agentErrorAnswer, "Agent Error", "unknown"⟩ ∧
    "unknown" ≠ "general_chat" ∧ "Agent Error" ≠ "LLM (General)" :=
  ⟨by decide, by decide, by decide⟩

/-- C1 witness: the amended theorem applied at the question `"محاكاة"`. -/
theorem C1_simulate_gpa_terminal_witness :
    process_agentic_query "محاكاة" (some "u1") exampleEnv true [] =
      .ok ⟨agentErrorAnswer, "Agent Error", "unknown"⟩ :=
  C1_simulate_gpa_terminal "محاكاة" (some "u1") exampleEnv true []
    ⟨"simulate_gpa", mkRat 95 100, some "Keyword heuristic"⟩ (by decide) (by decide)
    (by decide)

/-- C2 (amended): when classification confidence is strictly below the
threshold, the routed intent is set to the configured default fallback
intent and the fallback flag is marked; with the default fallback intent
"query_rag", if context retrieval then finds a non-empty context, the
returned source carries the " (Fallback)" suffix and the returned intent is
"query_rag".  (When retrieval finds no context the call re-branches to
general_chat and no suffix is attached — see the counterexample.) -/
theorem C2_confidence_fallback (question : String) (u : Option String)
    (env : Env) (d : Bool) (ch : List HistEntry) (pred : IntentPrediction)
    (ctx src ans : String)
    (hfaq : FAQ_DATABASE.find? (fun p => p.1 == question) = none)
    (hdet : determine_intent question env.classifierRaw = .ok pred)
    (hconf : pred.confidence < env.INTENT_FALLBACK_THRESHOLD)
    (hfb : env.DEFAULT_FALLBACK_INTENT = "query_rag")
    (hctx : env.retrieve_context question = .ok (some ctx, src))
    (hne : ctx ≠ "")
    (hgen : env.generate (rag_prompt (historySection ch) ctx question) = .ok ans) :
    resolveIntent env pred = (env.DEFAULT_FALLBACK_INTENT, true) ∧
    process_agentic_query question u env d ch =
      .ok ⟨ans, src ++ " (Fallback)", "query_rag"⟩ := by
  have hres : resolveIntent env pred = (env.DEFAULT_FALLBACK_INTENT, true) := by
    unfold resolveIntent
    rw [if_pos hconf]
  refine ⟨hres, ?_⟩
  rw [process_agentic_query_noFAQ question u env d ch pred hfaq hdet, hres, hfb]
  simp [routeIntent, hctx, hne, hgen, pyTruthyStr]

/-- C2 counterexample: for the question `"hi"` (no FAQ match, no keyword),
the classifier confidence 0.1 is below the threshold 0.7, so the router
falls back to "query_rag"; retrieval finds no context, the call re-branches
to general_chat, and the returned response has source "LLM (General)" — it
does not carry the "(Fallback)" suffix, and its intent is not the fallback
intent. -/
theorem C2_counterexample :
    process_agentic_query "hi" (some "s1") exampleEnv false [] =
      .ok ⟨"GEN", "LLM (General)", "general_chat"⟩ ∧
    strContainsSub "LLM (General)" "(Fallback)" = false ∧
    "general_chat" ≠ "query_rag" :=
  ⟨by decide, by decide, by decide⟩

/-- C2 witness: the amended theorem applied at the question `"hi"` with a
retrieval collaborator that finds a context. -/
theorem C2_confidence_fallback_witness :
    process_agentic_query "hi" (some "s1") ragCtxEnv false [] =
      .ok ⟨"GEN", "Documents (RAG) (Fallback)", "query_rag"⟩ :=
  (C2_confidence_fallback "hi" (some "s1") ragCtxEnv false []
    ⟨"general_chat", mkRat 1 10, none⟩ "CTX" "Documents (RAG)" "GEN"
    (by decide) (by decide) (by decide) rfl rfl (by decide) rfl).2

/-- C3 (amended): in the graph_query branch, whenever the question contains
both the skills token and the course token and the skills lookup returns a
non-empty list, the response is the composed sentence with source exactly
"Graph DB (Neo4j)" — not "Graph DB" — and intent "graph_query"; in every
other graph_query case (heuristic not firing, or empty skill list) the call
re-branches to general_chat and returns source "LLM (General)" with intent
"general_chat". -/
theorem C3_graph_branch (question : String) (u : Option String) (env : Env)
    (d : Bool) (ch : List HistEntry) (pred : IntentPrediction)
    (hfaq : FAQ_DATABASE.find? (fun p => p.1 == question) = none)
    (hdet : determine_intent question env.classifierRaw = .ok pred)
    (hres : (resolveIntent env pred).1 = "graph_query") :
    (∀ skills, strContainsSub question "مهارات" = true →
        strContainsSub question "مقرر" = true →
        env.get_skills_for_course "CS101" = .ok skills → skills ≠ [] →
        process_agentic_query question u env d ch =
          .ok ⟨"المقرر CS101 يدرس المهارات التالية: " ++
                 String.intercalate ", " skills,
               "Graph DB (Neo4j)", "graph_query"⟩) ∧
    (∀ ans, env.generate (general_prompt (historySection ch) question) = .ok ans →
        ((strContainsSub question "مهارات" && strContainsSub question "مقرر") = false →
           process_agentic_query question u env d ch =
             .ok ⟨ans, "LLM (General)", "general_chat"⟩) ∧
        (env.get_skills_for_course "CS101" = .ok [] →
           process_agentic_query question u env d ch =
             .ok ⟨ans, "LLM (General)", "general_chat"⟩)) := by
  rw [process_agentic_query_noFAQ question u env d ch pred hfaq hdet, hres]
  refine ⟨?_, ?_⟩
  · intro skills h1 h2 hsk hne
    cases skills with
    | nil => exact absurd rfl hne
    | cons a t => simp [routeIntent, h1, h2, hsk]
  · intro ans hgen
    refine ⟨?_, ?_⟩
    · intro hno
      simp [routeIntent, hno, general_chat_respond, hgen]
    · intro hsk
      by_cases hh : (strContainsSub question "مهارات" && strContainsSub question "مقرر") = true
      · simp [routeIntent, hh, hsk, general_chat_respond, hgen]
      · rw [Bool.not_eq_true] at hh
        simp [routeIntent, hh, general_chat_respond, hgen]

/-- C3 counterexample: with both tokens present and a non-empty skill list,
the returned source is "Graph DB (Neo4j)", not exactly "Graph DB" as the
claim states. -/
theorem C3_counterexample :
    process_agentic_query "ما هي مهارات مقرر CS101" (some "s1") exampleEnv false [] =
      .ok ⟨"المقرر CS101 يدرس المهارات التالية: Programming",
           "Graph DB (Neo4j)", "graph_query"⟩ ∧
    "Graph DB (Neo4j)" ≠ "Graph DB" :=
  ⟨by decide, by decide⟩

/-- C3 witness: the amended theorem applied to the successful-lookup case
(keyword-classified question with both tokens, one skill) and to the
empty-skill-list case (classifier-routed graph_query question without the
heuristic tokens). -/
theorem C3_graph_branch_witness :
    process_agentic_query "ما هي مهارات مقرر CS101" (some "s1") exampleEnv false [] =
      .ok ⟨"المقرر CS101 يدرس المهارات التالية: Programming",
           "Graph DB (Neo4j)", "graph_query"⟩ ∧
    process_agentic_query "zzq" (some "s1") graphEmptyEnv false [] =
      .ok ⟨"GEN", "LLM (General)", "general_chat"⟩ := by
  constructor
  · have h := C3_graph_branch "ما هي مهارات مقرر CS101" (some "s1") exampleEnv false []
      ⟨"graph_query", mkRat 95 100, some "Keyword heuristic"⟩
      (by decide) (by decide) (by decide)
    simpa using h.1 ["Programming"] (by decide) (by decide) rfl (by decide)
  · have h := C3_graph_branch "zzq" (some "s1") graphEmptyEnv false []
      ⟨"graph_query", mkRat 9 10, none⟩ (by decide) (by decide) (by decide)
    exact (h.2 "GEN" rfl).2 rfl

/-- C4: with no FAQ match and resolved intent "analyze_progress", when the
call is in demo mode or has no user id, the router returns the fixed
refusal with source exactly "Demo Mode" and intent "analyze_progress", and
the progress adapter is never invoked: the result is unchanged under any
replacement of the `analyze_progress` collaborator. -/
theorem C4_demo_guard (question : String) (u : Option String) (env : Env)
    (d : Bool) (ch : List HistEntry) (pred : IntentPrediction)
    (hfaq : FAQ_DATABASE.find? (fun p => p.1 == question) = none)
    (hdet : determine_intent question env.classifierRaw = .ok pred)
    (hres : (resolveIntent env pred).1 = "analyze_progress")
    (hdemo : d = true ∨ u = none) :
    process_agentic_query question u env d ch =
      .ok ⟨demoRefusalAnswer, "Demo Mode", "analyze_progress"⟩ ∧
    ∀ f, process_agentic_query question u { env with analyze_progress := f } d ch =
      process_agentic_query question u env d ch := by
  have hguard : (d || !pyTruthyStr u) = true := by
    rcases hdemo with h | h
    · simp [h]
    · simp [h, pyTruthyStr]
  have hmain : ∀ env' : Env,
      determine_intent question env'.classifierRaw = .ok pred →
      (resolveIntent env' pred).1 = "analyze_progress" →
      process_agentic_query question u env' d ch =
        .ok ⟨demoRefusalAnswer, "Demo Mode", "analyze_progress"⟩ := by
    intro env' hdet' hres'
    rw [process_agentic_query_noFAQ question u env' d ch pred hfaq hdet', hres']
    simp [routeIntent, hguard]
  refine ⟨hmain env hdet hres, ?_⟩
  intro f
  rw [hmain env hdet hres, hmain { env with analyze_progress := f } hdet hres]

/-- C4 witness: the demo guard at the question `"معدل"` with no user id. -/
theorem C4_demo_guard_witness :
    process_agentic_query "معدل" none exampleEnv false [] =
      .ok ⟨demoRefusalAnswer, "Demo Mode", "analyze_progress"⟩ :=
  (C4_demo_guard "معدل" none exampleEnv false []
    ⟨"analyze_progress", mkRat 95 100, some "Keyword heuristic"⟩
    (by decide) (by decide) (by decide) (Or.inr rfl)).1

/-- C5: with no FAQ match and resolved intent "query_rag", when context
retrieval returns an absent or empty context the call does not fail: it
re-branches to general_chat and returns intent "general_chat" with source
"LLM (General)". -/
theorem C5_rag_empty_context (question : String) (u : Option String)
    (env : Env) (d : Bool) (ch : List HistEntry) (pred : IntentPrediction)
    (ctxOpt : Option String) (src ans : String)
    (hfaq : FAQ_DATABASE.find? (fun p => p.1 == question) = none)
    (hdet : determine_intent question env.classifierRaw = .ok pred)
    (hres : (resolveIntent env pred).1 = "query_rag")
    (hctx : env.retrieve_context question = .ok (ctxOpt, src))
    (hemp : pyTruthyStr ctxOpt = false)
    (hgen : env.generate (general_prompt (historySection ch) question) = .ok ans) :
    process_agentic_query question u env d ch =
      .ok ⟨ans, "LLM (General)", "general_chat"⟩ := by
  rw [process_agentic_query_noFAQ question u env d ch pred hfaq hdet, hres]
  simp [routeIntent, hctx, hemp, general_chat_respond, hgen]

/-- C5 witness: the query_rag keyword question `"لائحة"` with a retrieval
collaborator that finds no context. -/
theorem C5_rag_empty_context_witness :
    process_agentic_query "لائحة" (some "s1") exampleEnv false [] =
      .ok ⟨"GEN", "LLM (General)", "general_chat"⟩ :=
  C5_rag_empty_context "لائحة" (some "s1") exampleEnv false []
    ⟨"query_rag", mkRat 95 100, some "Keyword heuristic"⟩
    none "Documents (RAG)" "GEN"
    (by decide) (by decide) (by decide) rfl (by decide) rfl

/-- Evaluation of `determine_intent` on the keyword fast path. -/
theorem determine_intent_keyword (question nm : String)
    (raw : Except String ClassifierOutput)
    (hk : keywordIntent question = some nm) :
    determine_intent question raw =
      .ok ⟨nm, mkRat 95 100, some "Keyword heuristic"⟩ := by
  unfold determine_intent
  rw [hk]

/-- Evaluation of `determine_intent` when no keyword matches and the
classifier LLM call raises: the error propagates. -/
theorem determine_intent_llm_error (question e : String)
    (hk : keywordIntent question = none) :
    determine_intent question (.error e) = .error e := by
  unfold determine_intent
  rw [hk]

/-- Evaluation of `determine_intent` when no keyword matches and the raw
response parses as JSON. -/
theorem determine_intent_llm_json (question i : String) (c : ℚ)
    (r : Option String) (hk : keywordIntent question = none) :
    determine_intent question (.ok (.json i c r)) =
      .ok (if normalizeIntent i ∈ valid_intents
           then ⟨normalizeIntent i, max 0 (min c 1), r⟩
           else ⟨"general_chat", max 0 (min (min c (mkRat 1 2)) 1), r⟩) := by
  unfold determine_intent
  rw [hk]
  by_cases hv : normalizeIntent i ∈ valid_intents
  · simp [hv]
  · simp [hv]

/-- Evaluation of `determine_intent` when no keyword matches and the raw
response does not parse as JSON. -/
theorem determine_intent_llm_nonJson (question rawText : String)
    (hk : keywordIntent question = none) :
    determine_intent question (.ok (.nonJson rawText)) =
      .ok (if normalizeIntent rawText ∈ valid_intents
           then ⟨normalizeIntent rawText, max 0 (min (mkRat 6 10) 1), none⟩
           else ⟨"general_chat",
                 max 0 (min (min (mkRat 6 10) (mkRat 1 2)) 1), none⟩) := by
  unfold determine_intent
  rw [hk]
  by_cases hv : normalizeIntent rawText ∈ valid_intents
  · simp [hv]
  · simp [hv]

/-- Every first component of `INTENT_KEYWORDS` is a valid intent. -/
theorem intent_keywords_keys_valid :
    ∀ p ∈ INTENT_KEYWORDS, p.1 ∈ valid_intents := by decide

/-- C6: every `IntentPrediction` returned by `determine_intent` has its
intent in the closed set `valid_intents` and its confidence in [0,1]; and
whenever the classifier LLM output, after the normalization chain, is
outside that set, the returned intent is "general_chat" and the confidence
is at most 0.5. -/
theorem C6_intent_normalized_invariant (question : String)
    (raw : Except String ClassifierOutput) (pred : IntentPrediction)
    (h : determine_intent question raw = .ok pred) :
    pred.intent ∈ valid_intents ∧ 0 ≤ pred.confidence ∧ pred.confidence ≤ 1 ∧
    (∀ out, keywordIntent question = none → raw = .ok out →
      out.normalized ∉ valid_intents →
      pred.intent = "general_chat" ∧ pred.confidence ≤ mkRat 1 2) := by
  cases hk : keywordIntent question with
  | some nm =>
      rw [determine_intent_keyword question nm raw hk] at h
      cases h
      obtain ⟨p, hfind, hp⟩ := Option.map_eq_some'.mp hk
      refine ⟨?_, ?_, ?_, ?_⟩
      · rw [← hp]
        exact intent_keywords_keys_valid p (List.mem_of_find?_eq_some hfind)
      · show (0 : ℚ) ≤ mkRat 95 100
        decide
      · show (mkRat 95 100 : ℚ) ≤ 1
        decide
      · intro out hnone
        cases hnone
  | none =>
      cases raw with
      | error e =>
          rw [determine_intent_llm_error question e hk] at h
          cases h
      | ok out =>
          have hbounds : ∀ c : ℚ, 0 ≤ max 0 (min c 1) ∧ max 0 (min c 1) ≤ 1 :=
            fun c => ⟨le_max_left 0 _, max_le (by norm_num) (min_le_right c 1)⟩
          have hhalf : ∀ c : ℚ, max 0 (min (min c (mkRat 1 2)) 1) ≤ mkRat 1 2 :=
            fun c => max_le (by decide)
              (le_trans (min_le_left _ 1) (min_le_right c (mkRat 1 2)))
          have hhalf0 : ∀ c : ℚ, 0 ≤ max 0 (min (min c (mkRat 1 2)) 1) :=
            fun c => le_max_left 0 _
          have hhalf1 : ∀ c : ℚ, max 0 (min (min c (mkRat 1 2)) 1) ≤ 1 :=
            fun c => max_le (by norm_num) (min_le_right _ 1)
          cases out with
          | json i c r =>
              rw [determine_intent_llm_json question i c r hk] at h
              by_cases hv : normalizeIntent i ∈ valid_intents
              · rw [if_pos hv] at h
                cases h
                refine ⟨hv, (hbounds c).1, (hbounds c).2, ?_⟩
                intro out' _ hout hnv
                cases hout
                exact absurd hv hnv
              · rw [if_neg hv] at h
                cases h
                refine ⟨show "general_chat" ∈ valid_intents by decide,
                  hhalf0 c, hhalf1 c, ?_⟩
                intro out' _ hout _
                exact ⟨rfl, hhalf c⟩
          | nonJson rawText =>
              rw [determine_intent_llm_nonJson question rawText hk] at h
              by_cases hv : normalizeIntent rawText ∈ valid_intents
              · rw [if_pos hv] at h
                cases h
                refine ⟨hv, (hbounds _).1, (hbounds _).2, ?_⟩
                intro out' _ hout hnv
                cases hout
                exact absurd hv hnv
              · rw [if_neg hv] at h
                cases h
                refine ⟨show "general_chat" ∈ valid_intents by decide,
                  hhalf0 _, hhalf1 _, ?_⟩
                intro out' _ hout _
                exact ⟨rfl, hhalf _⟩

/-- C6 witness: the invariant applied to an out-of-enum classifier answer
("Bogus Intent" normalizes to "bogus_intent", outside the enum), which
yields intent "general_chat" with confidence exactly 0.5 ∈ [0, 1/2]. -/
theorem C6_intent_normalized_invariant_witness :
    "general_chat" ∈ valid_intents ∧
    (0 : ℚ) ≤ mkRat 1 2 ∧ mkRat 1 2 ≤ 1 ∧
    ("general_chat" = "general_chat" ∧ (mkRat 1 2 : ℚ) ≤ mkRat 1 2) := by
  have h := C6_intent_normalized_invariant "zzq"
    (.ok (.json "Bogus Intent" (mkRat 9 10) none))
    ⟨"general_chat", mkRat 1 2, none⟩ (by decide)
  exact ⟨h.1, h.2.1, h.2.2.1,
    h.2.2.2 (.json "Bogus Intent" (mkRat 9 10) none) (by decide) rfl (by decide)⟩

/-- C7 (amended): two consecutive `generate_llm_response` calls with
byte-identical prompts, starting from a cache holding no entry for the
prompt key, with the second call inside the TTL window, return identical
answers and invoke the underlying generation collaborator exactly once —
provided the generated answer is a non-empty string (the source treats a
falsy cached value as a miss, so an empty answer is regenerated; see the
counterexample). -/
theorem C7_cache_idempotent (gen : Nat → String → Except String String)
    (s0 : CacheState) (t1 t2 : ℚ) (prompt a : String)
    (hkey : (s0.store.find? fun e =>
        e.1 == _hash_key "llm:response" prompt) = none)
    (hgen : gen 0 prompt = .ok a) (ha : a ≠ "")
    (ht : t2 ≤ t1 + LLM_CACHE_TTL) :
    (runGenTwice gen s0 t1 t2 prompt).map (fun r => (r.1, r.2.1, r.2.2.2)) =
      .ok (a, a, 1) := by
  have hnlt : ¬ (t1 + LLM_CACHE_TTL < t2) := not_lt.mpr ht
  unfold runGenTwice generate_llm_response cacheGet cacheSet
  simp [hkey, hgen, pyTruthyStr, ha, hnlt, List.find?, Except.map]

/-- C7 counterexample: with a collaborator that answers the empty string,
the second byte-identical call at time 1 (inside the 900s TTL window of the
first call at time 0) invokes the collaborator again — two invocations in
total, not at most one. -/
theorem C7_counterexample :
    (runGenTwice (fun _ _ => .ok "") ⟨[]⟩ 0 1 "p").map (fun r => r.2.2.2) =
      .ok 2 ∧ (1 : ℚ) ≤ 0 + LLM_CACHE_TTL := by
  constructor
  · unfold runGenTwice generate_llm_response cacheGet cacheSet
    simp [pyTruthyStr, LLM_CACHE_TTL, List.find?, Except.map]
  · norm_num [LLM_CACHE_TTL]

/-- C7 witness: the amended theorem at the prompt `"p"` with a collaborator
answering `"A"`. -/
theorem C7_cache_idempotent_witness :
    (runGenTwice (fun _ _ => .ok "A") ⟨[]⟩ 0 0 "p").map
        (fun r => (r.1, r.2.1, r.2.2.2)) = .ok ("A", "A", 1) :=
  C7_cache_idempotent (fun _ _ => .ok "A") ⟨[]⟩ 0 0 "p" "A" rfl rfl
    (by decide) (by norm_num [LLM_CACHE_TTL])

/-- C8: in the `analyze_progress` branch with demo mode off and a present
user id, a failure anywhere inside the `try:` block (the adapter call or the
subsequent generation) is caught: the router still returns normally, with
the in-band degraded error answer, source exactly "Error", and intent
"analyze_progress". -/
theorem C8_progress_error_contained (question : String) (u : Option String)
    (env : Env) (ch : List HistEntry) (pred : IntentPrediction) (e : String)
    (hfaq : FAQ_DATABASE.find? (fun p => p.1 == question) = none)
    (hdet : determine_intent question env.classifierRaw = .ok pred)
    (hres : (resolveIntent env pred).1 = "analyze_progress")
    (huid : pyTruthyStr u = true)
    (herr : analyze_progress_branch env (u.getD "") (historySection ch)
        question = .error e) :
    process_agentic_query question u env false ch =
      .ok ⟨"حدث خطأ أثناء تحليل تقدم الطالب: " ++ e, "Error",
           "analyze_progress"⟩ := by
  rw [process_agentic_query_noFAQ question u env false ch pred hfaq hdet, hres]
  simp [routeIntent, huid, herr]

/-- C8 witness: the keyword question `"معدل"` with a progress collaborator
that raises `"boom"`. -/
theorem C8_progress_error_contained_witness :
    process_agentic_query "معدل" (some "s1") exampleEnv false [] =
      .ok ⟨"حدث خطأ أثناء تحليل تقدم الطالب: boom", "Error",
           "analyze_progress"⟩ :=
  C8_progress_error_contained "معدل" (some "s1") exampleEnv []
    ⟨"analyze_progress", mkRat 95 100, some "Keyword heuristic"⟩ "boom"
    (by decide) (by decide) (by decide) (by decide) rfl

/-- C9: a question that exactly equals a configured FAQ key is answered
verbatim from the FAQ store with source "FAQ Database" and intent
"query_rag", for every environment, user id, demo flag and history; and the
result is identical across arbitrary changes of all of those inputs, so the
classifier and the adapter collaborators are never consulted. -/
theorem C9_faq_short_circuit (question k v : String)
    (hfaq : FAQ_DATABASE.find? (fun p => p.1 == question) = some (k, v)) :
    ∀ (u u' : Option String) (env env' : Env) (d d' : Bool)
      (ch ch' : List HistEntry),
      process_agentic_query question u env d ch =
        .ok ⟨v, "FAQ Database", "query_rag"⟩ ∧
      process_agentic_query question u env d ch =
        process_agentic_query question u' env' d' ch' := by
  intro u u' env env' d d' ch ch'
  constructor
  · unfold process_agentic_query
    rw [hfaq]
  · unfold process_agentic_query
    rw [hfaq]

/-- C9 witness: the first FAQ entry, in demo mode with no user id and a
different environment on each side. -/
theorem C9_faq_short_circuit_witness :
    process_agentic_query "متى آخر يوم للحذف والإضافة؟" none exampleEnv true [] =
      .ok ⟨"آخر يوم هو 20 فبراير 2025.", "FAQ Database", "query_rag"⟩ :=
  (C9_faq_short_circuit "متى آخر يوم للحذف والإضافة؟"
    "متى آخر يوم للحذف والإضافة؟" "آخر يوم هو 20 فبراير 2025." (by decide)
    none (some "s1") exampleEnv graphEmptyEnv true false [] []).1

/-- The intent field of every successful `routeIntent` result is one of the
five strings the router can return. -/
theorem routeIntent_intent_cases (env : Env) (question : String)
    (u : Option String) (d : Bool) (hs intent : String) (fb : Bool)
    (r : LLMResponse)
    (h : routeIntent env question u d hs intent fb = .ok r) :
    r.intent ∈ ["query_rag", "analyze_progress", "graph_query",
                "general_chat", "unknown"] := by
  unfold routeIntent general_chat_respond at h
  repeat' split at h
  all_goals try cases h
  all_goals simp_all

/-- C10: for every input and environment (any question, history, user id,
demo flag, adapter behavior, and any configured default fallback intent),
whenever `process_agentic_query` returns a response, its intent field is one
of exactly "query_rag", "analyze_progress", "graph_query", "general_chat",
or "unknown"; in particular it is never "simulate_gpa" and never an
out-of-enum fallback string. -/
theorem C10_router_intent_closed (question : String) (u : Option String)
    (env : Env) (d : Bool) (ch : List HistEntry) (r : LLMResponse)
    (h : process_agentic_query question u env d ch = .ok r) :
    r.intent ∈ ["query_rag", "analyze_progress", "graph_query",
                "general_chat", "unknown"] ∧ r.intent ≠ "simulate_gpa" := by
  have hmem : r.intent ∈ ["query_rag", "analyze_progress", "graph_query",
      "general_chat", "unknown"] := by
    unfold process_agentic_query at h
    split at h
    · simp only [Except.ok.injEq] at h
      subst h
      simp
    · split at h
      · cases h
      · exact routeIntent_intent_cases _ _ _ _ _ _ _ _ h
  refine ⟨hmem, ?_⟩
  intro hcontra
  rw [hcontra] at hmem
  simp at hmem

/-- C10 witness: the closed-enum invariant applied to a simulate_gpa
keyword question, whose response carries intent "unknown". -/
theorem C10_router_intent_closed_witness :
    "unknown" ∈ ["query_rag", "analyze_progress", "graph_query",
                 "general_chat", "unknown"] ∧
    "unknown" ≠ "simulate_gpa" :=
  C10_router_intent_closed "محاكاة" none exampleEnv false []
    ⟨agentErrorAnswer, "Agent Error", "unknown"⟩ (by decide)
